import Mathlib

/-!
# Verification of the jira-lib paginated retrieval and reconstruction subsystem

A shallow embedding of the core of the `eliziario/jira-lib` Go repository:

* the search layer (`pkg/jira/search.go`): JQL bound detection and synthesis
  (`isJQLBounded` and the binding step inside `search`), HTTP status handling,
  and the total-count fix-up for the modern (v3) dialect;
* the changelog/status-history reconstructor (`lib`, `GetIssueStatusChanges`,
  `getIssueWithChangelog`, `fetchAdditionalHistory`);
* the duration aggregator (`examples/status-tracking/main.go`,
  `calculateStatusTime`).

Modelling conventions:

* Instants of time (`time.Time`) are integers; the Go zero `time.Time` value is
  `0` and `time.Now()` is an explicit `now : Int` parameter.
* The Go standard library parser `time.Parse(layout, s)` is abstracted as a
  function `String → Option Int` per layout (the two layouts used by the code
  become two such parameters `p1`, `p2`); `none` models a parse error, in which
  case Go leaves the zero `time.Time` in the result value.
* The HTTP exchange performed by the injected `jira.Client` transport is
  modelled by an oracle value (`HttpOutcome`) per request: transport error,
  nil response, or a response carrying a status code and a decode outcome.
* Go `string` is `String`, Go `int` is `Int`, slice lengths are coerced.
* The unbounded `for {}` loop of `fetchAdditionalHistory` is modelled with an
  explicit fuel parameter counting HTTP calls; running out of fuel yields a
  distinguished `running` outcome meaning the Go loop has not yet returned.
-/

namespace JiraLib

/-! ## Strings: Go `strings.ToLower` and `strings.Contains`

The queries appearing in this development are ASCII, where Go's Unicode
`strings.ToLower` agrees with a character-wise ASCII lowering. -/

/-- Go `strings.ToLower` (ASCII fragment): lower every character. -/
def toLowerStr (s : String) : String :=
  ⟨s.data.map Char.toLower⟩

/-- Helper for Go `strings.Contains`: does `needle` occur as a contiguous
sublist of `hay`? -/
def containsAux : List Char → List Char → Bool
  | [], needle => needle.isEmpty
  | h :: t, needle => needle.isPrefixOf (h :: t) || containsAux t needle

/-- Go `strings.Contains s sub`. -/
def strContains (s sub : String) : Bool :=
  containsAux s.data sub.data

/-! ## `pkg/jira/search.go` -/

/-- API version constants of `pkg/jira` (v2 = legacy server/datacenter
endpoint, v3 = modern cloud endpoint). -/
def apiVersion2 : String := "2"

/-- Modern cloud API version constant. -/
def apiVersion3 : String := "3"

/-- The `boundingTerms` table of `isJQLBounded` (`search.go` lines 98-105). -/
def boundingTerms : List String :=
  ["created >=", "created >", "created =", "created <=", "created <",
   "updated >=", "updated >", "updated =", "updated <=", "updated <",
   "project =", "project in", "project IN",
   "id =", "id in", "id IN",
   "key =", "key in", "key IN",
   "issuekey =", "issuekey in", "issuekey IN"]

/-- `isJQLBounded` (`search.go` lines 96-115): case-insensitive substring
match of the query against the fixed vocabulary of bounding fragments. -/
def isJQLBounded (jql : String) : Bool :=
  boundingTerms.any fun term => strContains (toLowerStr jql) (toLowerStr term)

/-- The JQL-bounding step of `search` for the v3 dialect (`search.go` lines
43-50): an already-bounded query passes through; otherwise a default
`created >= -90d` restriction is synthesized, ANDed with the original
query wrapped in parentheses when it is non-empty. -/
def bindJQL (jql : String) : String :=
  if isJQLBounded jql then jql
  else if jql = "" then "created >= -90d"
  else "created >= -90d AND (" ++ jql ++ ")"

/-- An issue as far as this development needs it: the search layer only
counts issues, so only the key is retained from `pkg/jira`'s `Issue`. -/
structure Issue where
  key : String
deriving DecidableEq, Repr

/-- `SearchResult` (`search.go` lines 13-20). -/
structure SearchResult where
  startAt : Int
  maxResults : Int
  total : Int
  issues : List Issue
  nextPageToken : String
  isLast : Bool
deriving DecidableEq, Repr

/-- Outcome of one HTTP GET issued through the transport, as observed by the
calling code: `err` is a non-nil Go error from the transport, `nilRes` a nil
`*http.Response`, and `response code body` a response with the given status
code whose body decodes to `some` value or fails to decode (`none`). -/
inductive HttpOutcome (α : Type) where
  | err : HttpOutcome α
  | nilRes : HttpOutcome α
  | response (code : Int) (body : Option α) : HttpOutcome α

/-- The error kinds surfaced by the search / changelog fetch paths. -/
inductive ApiError where
  | transport
  | emptyResponse
  | unexpectedStatus (code : Int)
  | decodeFailure
deriving DecidableEq, Repr

/-- The total fix-up applied after decoding in `search` (`search.go` lines
81-90): only for the v3 dialect, only when the decoded total is zero and
issues were returned; `isLast` gives `startAt + len(issues)`, otherwise the
10000 sentinel. -/
def fixSearchTotal (ver : String) (startAt : Int) (out : SearchResult) : SearchResult :=
  if ver = apiVersion3 ∧ out.total = 0 ∧ 0 < out.issues.length then
    if out.isLast then { out with total := startAt + out.issues.length }
    else { out with total := 10000 }
  else out

/-- `search` (`search.go` lines 32-93). The request path is built from
`requestJQL` below; the network exchange itself is abstracted by the
`response` oracle. Error handling and the total fix-up follow the source. -/
def search (startAt : Int) (ver : String)
    (response : HttpOutcome SearchResult) : Except ApiError SearchResult :=
  match response with
  | .err => .error .transport
  | .nilRes => .error .emptyResponse
  | .response code body =>
    if code ≠ 200 then .error (.unexpectedStatus code)
    else
      match body with
      | none => .error .decodeFailure
      | some out => .ok (fixSearchTotal ver startAt out)

/-- The JQL actually sent by `search`: bound synthesis applies only on the
v3 path (`search.go` lines 40-50); v2 sends the query untouched. -/
def requestJQL (ver jql : String) : String :=
  if ver = apiVersion3 then bindJQL jql else jql

/-! ## `lib` changelog data model (`example_test.go` lines 857-916) -/

/-- `HistoryItem`: a single field change within a history entry. -/
structure HistoryItem where
  field : String
  fieldtype : String
  fromId : String
  fromString : String
  toId : String
  toString : String
deriving DecidableEq, Repr

/-- `HistoryAuthor`: the author of a history change. -/
structure HistoryAuthor where
  name : String
  emailAddress : String
  displayName : String
deriving DecidableEq, Repr

/-- `IssueHistory`: a single changelog history entry. -/
structure IssueHistory where
  id : String
  author : Option HistoryAuthor
  created : String
  items : List HistoryItem
deriving DecidableEq, Repr

/-- `IssueChangelog`: the changelog section of an issue. -/
structure IssueChangelog where
  startAt : Int
  maxResults : Int
  total : Int
  histories : List IssueHistory
deriving DecidableEq, Repr

/-- The two fields of `jira.IssueFields` that `GetIssueStatusChanges` reads:
`Fields.Created` and `Fields.Reporter.Name`. -/
structure IssueFields where
  created : String
  reporterName : String
deriving DecidableEq, Repr

/-- `IssueWithChangelog`: an issue with its changelog data. -/
structure IssueWithChangelog where
  key : String
  fields : IssueFields
  changelog : Option IssueChangelog
deriving DecidableEq, Repr

/-- `StatusChange`: a reconstructed status transition. -/
structure StatusChange where
  timestamp : Int
  author : String
  fromStatus : String
  toStatus : String
  authorEmail : String
  authorDisplayName : String
deriving DecidableEq, Repr

/-! ## `GetIssueStatusChanges` and its helpers

`p1` models `time.Parse(time.RFC3339, ·)` and `p2` models
`time.Parse("2006-01-02T15:04:05.000-0700", ·)`. -/

/-- Timestamp parsing of the embedded first changelog page
(`example_test.go` lines 934-943): primary format, then the alternative
format, then `time.Now()` as a final fallback. -/
def parseHistoryCreated (p1 p2 : String → Option Int) (now : Int) (s : String) : Int :=
  match p1 s with
  | some t => t
  | none =>
    match p2 s with
    | some t => t
    | none => now

/-- Timestamp parsing inside `fetchAdditionalHistory` (`example_test.go`
lines 1081-1084): the primary parse error is discarded, leaving the zero
`time.Time` on failure; the alternative format is tried only when the result
is the zero instant, again discarding any error (so a double failure leaves
the zero instant, not the current time). -/
def parseHistoryCreatedCont (p1 p2 : String → Option Int) (s : String) : Int :=
  let t := (p1 s).getD 0
  if t = 0 then (p2 s).getD 0 else t

/-- The author fields copied onto a `StatusChange` when the history entry has
a non-nil author (`example_test.go` lines 952-956 and 1092-1096). -/
def changeOfItem (timestamp : Int) (author : Option HistoryAuthor)
    (item : HistoryItem) : StatusChange :=
  match author with
  | some a =>
    { timestamp := timestamp, author := a.name, fromStatus := item.fromString,
      toStatus := item.toString, authorEmail := a.emailAddress,
      authorDisplayName := a.displayName }
  | none =>
    { timestamp := timestamp, author := "", fromStatus := item.fromString,
      toStatus := item.toString, authorEmail := "", authorDisplayName := "" }

/-- The double loop over histories and items of the embedded first page
(`example_test.go` lines 931-961): keep items whose field is `"status"`. -/
def extractStatusChanges (p1 p2 : String → Option Int) (now : Int)
    (histories : List IssueHistory) : List StatusChange :=
  histories.flatMap fun history =>
    (history.items.filter fun item => item.field = "status").map fun item =>
      changeOfItem (parseHistoryCreated p1 p2 now history.created) history.author item

/-- The same double loop inside `fetchAdditionalHistory` (`example_test.go`
lines 1078-1101), with the continuation-page timestamp parsing. -/
def extractStatusChangesCont (p1 p2 : String → Option Int)
    (histories : List IssueHistory) : List StatusChange :=
  histories.flatMap fun history =>
    (history.items.filter fun item => item.field = "status").map fun item =>
      changeOfItem (parseHistoryCreatedCont p1 p2 history.created) history.author item

/-- Outcome of the `fetchAdditionalHistory` loop: `finished changes errored`
models the Go function returning `(changes, err)` with `errored = (err ≠ nil)`;
`running acc currentStart` means the loop has performed all its allotted
calls without returning — the Go loop is still iterating at `currentStart`
with `acc` accumulated. -/
inductive PagerOutcome where
  | finished (changes : List StatusChange) (errored : Bool)
  | running (acc : List StatusChange) (currentStart : Int)
deriving DecidableEq, Repr

/-- `fetchAdditionalHistory` (`example_test.go` lines 1042-1112). `server n`
is the outcome of `GET /issue/<key>/changelog?startAt=n`. On transport error,
nil response, non-200 status or decode failure the accumulated changes are
returned together with the error. After a successful page the loop stops
when `currentStart + len(histories) >= total`, else advances `currentStart`
by `len(histories)` — there is no zero-histories guard. `fuel` bounds the
number of HTTP calls modelled. -/
def fetchAdditionalHistory (p1 p2 : String → Option Int)
    (server : Int → HttpOutcome IssueChangelog) :
    Nat → Int → List StatusChange → PagerOutcome
  | 0, currentStart, acc => .running acc currentStart
  | fuel + 1, currentStart, acc =>
    match server currentStart with
    | .err => .finished acc true
    | .nilRes => .finished acc true
    | .response code body =>
      if code ≠ 200 then .finished acc true
      else
        match body with
        | none => .finished acc true
        | some changelog =>
          let acc := acc ++ extractStatusChangesCont p1 p2 changelog.histories
          if currentStart + (changelog.histories.length : Int) ≥ changelog.total then
            .finished acc false
          else
            fetchAdditionalHistory p1 p2 server fuel
              (currentStart + changelog.histories.length) acc

/-- `getIssueWithChangelog` (`example_test.go` lines 1007-1039): the outcome
of `GET /issue/<key>?expand=changelog`, mapped to the issue or an error. -/
def getIssueWithChangelog (res : HttpOutcome IssueWithChangelog) :
    Except ApiError IssueWithChangelog :=
  match res with
  | .err => .error .transport
  | .nilRes => .error .emptyResponse
  | .response code body =>
    if code ≠ 200 then .error (.unexpectedStatus code)
    else
      match body with
      | none => .error .decodeFailure
      | some issue => .ok issue

/-- The creation-timestamp parse of the backfill step (`example_test.go`
lines 975-978): primary format, then the alternative format; `none` when
both fail (in which case the backfill is skipped). -/
def parseCreatedField (p1 p2 : String → Option Int) (s : String) : Option Int :=
  match p1 s with
  | some t => some t
  | none => p2 s

/-- Fallback element for indexing a list known to be non-empty. -/
def defaultChange : StatusChange :=
  { timestamp := 0, author := "", fromStatus := "", toStatus := "",
    authorEmail := "", authorDisplayName := "" }

/-- The initial-status backfill (`example_test.go` lines 973-995): when at
least one transition was found and the creation timestamp of the issue is
present and parses, and the earliest transition (the last element in
discovery order) has a non-empty previous status, append a synthetic
creation-time entry attributed to the reporter when the reporter name is
non-empty. -/
def addInitialStatus (p1 p2 : String → Option Int) (issue : IssueWithChangelog)
    (statusChanges : List StatusChange) : List StatusChange :=
  if 0 < statusChanges.length ∧ issue.fields.created ≠ "" then
    match parseCreatedField p1 p2 issue.fields.created with
    | none => statusChanges
    | some createdTime =>
      let earliestChange := statusChanges.getLastD defaultChange
      if earliestChange.fromStatus ≠ "" then
        statusChanges ++
          [{ timestamp := createdTime, author :=
               (if issue.fields.reporterName ≠ "" then issue.fields.reporterName else ""),
             fromStatus := "", toStatus := earliestChange.fromStatus,
             authorEmail := "", authorDisplayName :=
               (if issue.fields.reporterName ≠ "" then issue.fields.reporterName else "") }]
      else statusChanges
  else statusChanges

/-- The body of `GetIssueStatusChanges` between the successful initial fetch
and the final reversal (`example_test.go` lines 927-995): the discovery-order
list of status changes. Returns `none` when the continuation-page loop runs
out of fuel (the Go call has not returned). The continuation pages are
fetched only when `total > startAt + maxResults`, starting at `maxResults`,
and their result is appended only when the pager returned no error —
an errored pager's partial changes are discarded (line 967: `if err == nil`). -/
def collectStatusChanges (p1 p2 : String → Option Int) (now : Int)
    (issue : IssueWithChangelog) (server : Int → HttpOutcome IssueChangelog)
    (fuel : Nat) : Option (List StatusChange) :=
  match issue.changelog with
  | none => some (addInitialStatus p1 p2 issue [])
  | some changelog =>
    let statusChanges := extractStatusChanges p1 p2 now changelog.histories
    if changelog.total > changelog.startAt + changelog.maxResults then
      match fetchAdditionalHistory p1 p2 server fuel changelog.maxResults [] with
      | .running _ _ => none
      | .finished additionalChanges errored =>
        some (addInitialStatus p1 p2 issue
          (if errored then statusChanges else statusChanges ++ additionalChanges))
    else
      some (addInitialStatus p1 p2 issue statusChanges)

/-- `GetIssueStatusChanges` (`example_test.go` lines 920-1004). `issueRes` is
the outcome of the initial issue+changelog fetch, `server` the continuation
changelog endpoint. The trailing index-swap loop (lines 998-1001) swaps
positions `i` and `len-1-i` for `i < len/2`, i.e. reverses the list. `none`
models the Go call never returning (pager loop still running). -/
def getIssueStatusChanges (p1 p2 : String → Option Int) (now : Int)
    (issueRes : HttpOutcome IssueWithChangelog)
    (server : Int → HttpOutcome IssueChangelog) (fuel : Nat) :
    Option (Except ApiError (List StatusChange)) :=
  match getIssueWithChangelog issueRes with
  | .error e => some (.error e)
  | .ok issue =>
    match collectStatusChanges p1 p2 now issue server fuel with
    | none => none
    | some statusChanges => some (.ok statusChanges.reverse)

/-! ## `calculateStatusTime` (`examples/status-tracking/main.go` lines 322-336)

The Go `map[string]time.Duration` is modelled as an association list with
`statusTime[k] += d` semantics (`addDuration`); durations are integers
(`time.Duration` is an integer nanosecond count). -/

/-- `statusTime[k] += d` on a Go map whose zero value for a missing key is 0. -/
def addDuration : List (String × Int) → String → Int → List (String × Int)
  | [], k, d => [(k, d)]
  | (k', v) :: t, k, d =>
    if k' = k then (k', v + d) :: t else (k', v) :: addDuration t k d

/-- The per-entry residencies of `calculateStatusTime`'s loop, in order:
entry `i` yields `(toStatus i, timestamp (i+1) - timestamp i)` for all but
the last entry, and `(toStatus last, now - timestamp last)` for the last. -/
def residencies (now : Int) : List StatusChange → List (String × Int)
  | [] => []
  | [c] => [(c.toStatus, now - c.timestamp)]
  | c :: c' :: rest => (c.toStatus, c'.timestamp - c.timestamp) :: residencies now (c' :: rest)

/-- `calculateStatusTime` (`main.go` lines 322-336): accumulate each entry's
residency into the per-status map. -/
def calculateStatusTime (now : Int) (changes : List StatusChange) :
    List (String × Int) :=
  (residencies now changes).foldl (fun m p => addDuration m p.1 p.2) []

/-- Sum of the values of a status-time map. -/
def sumDurations (m : List (String × Int)) : Int :=
  (m.map Prod.snd).sum

/-! ## Ordering predicates on reconstructed sequences -/

/-- Chronologically ascending: `timestamps[i] ≤ timestamps[i+1]` for all i. -/
def ChronAsc (l : List StatusChange) : Prop :=
  l.Pairwise fun a b => a.timestamp ≤ b.timestamp

/-- Chronologically descending (newest first). -/
def ChronDesc (l : List StatusChange) : Prop :=
  l.Pairwise fun a b => b.timestamp ≤ a.timestamp

instance (l : List StatusChange) : Decidable (ChronAsc l) := by
  unfold ChronAsc; infer_instance

instance (l : List StatusChange) : Decidable (ChronDesc l) := by
  unfold ChronDesc; infer_instance

/-! ## Helper lemmas about substring containment -/

theorem isPrefixOf_append (p l₁ l₂ : List Char) (h : p.isPrefixOf l₁ = true) :
    p.isPrefixOf (l₁ ++ l₂) = true := by
  induction p generalizing l₁ with
  | nil => simp [List.isPrefixOf]
  | cons a as ih =>
    cases l₁ with
    | nil => simp [List.isPrefixOf] at h
    | cons b bs =>
      simp only [List.cons_append, List.isPrefixOf, Bool.and_eq_true] at h ⊢
      exact ⟨h.1, ih bs h.2⟩

theorem containsAux_of_isPrefixOf (hay needle : List Char)
    (h : needle.isPrefixOf hay = true) : containsAux hay needle = true := by
  cases hay with
  | nil =>
    cases needle with
    | nil => rfl
    | cons a as => simp [List.isPrefixOf] at h
  | cons b bs => simp [containsAux, h]

theorem strContains_append_left (a b needle : String)
    (h : needle.data.isPrefixOf a.data = true) :
    strContains (a ++ b) needle = true := by
  unfold strContains
  rw [show (a ++ b).data = a.data ++ b.data from rfl]
  exact containsAux_of_isPrefixOf _ _ (isPrefixOf_append _ _ _ h)

theorem toLowerStr_append (a b : String) :
    toLowerStr (a ++ b) = toLowerStr a ++ toLowerStr b := by
  unfold toLowerStr
  rw [show (a ++ b).data = a.data ++ b.data from rfl, List.map_append]
  rfl

/-- Every output of one application of `bindJQL` passes the bounding check:
the synthesized queries start with the fragment `created >=`. -/
theorem isJQLBounded_bindJQL (q : String) : isJQLBounded (bindJQL q) = true := by
  unfold bindJQL
  by_cases hb : isJQLBounded q
  · simp [hb]
  · simp only [hb, Bool.false_eq_true, if_false]
    by_cases hq : q = ""
    · simp only [hq, if_true]; decide
    · simp only [hq, if_false]
      have hlow : toLowerStr ("created >= -90d AND (" ++ (q ++ ")"))
          = "created >= -90d and (" ++ toLowerStr (q ++ ")") := by
        rw [toLowerStr_append]
        congr 1
      have hcontains :
          strContains (toLowerStr ("created >= -90d AND (" ++ (q ++ ")")))
            (toLowerStr "created >=") = true := by
        rw [hlow]
        exact strContains_append_left _ _ _ (by decide)
      unfold isJQLBounded boundingTerms
      simp only [List.any_cons, Bool.or_eq_true]
      exact Or.inl hcontains

/-! ## Claim theorems -/

/-- **C7.** The modern-dialect bound synthesis maps `""` to exactly
`"created >= -90d"`, maps any non-empty query that fails the bounding check
(such as `"assignee = bob"`) to
`"created >= -90d AND (" ++ q ++ ")"`, and passes a query already containing
a bounding predicate fragment through unchanged. -/
theorem c7_bound_synthesis :
    bindJQL "" = "created >= -90d" ∧
    bindJQL "assignee = bob" = "created >= -90d AND (assignee = bob)" ∧
    (∀ q, isJQLBounded q = true → bindJQL q = q) ∧
    (∀ q, q ≠ "" → isJQLBounded q = false →
      bindJQL q = "created >= -90d AND (" ++ q ++ ")") := by
  refine ⟨by decide, by decide, ?_, ?_⟩
  · intro q h
    simp [bindJQL, h]
  · intro q hne hb
    simp [bindJQL, hb, hne]

/-- Witness for C7: a concrete already-bounded query passes through. -/
theorem c7_bound_synthesis_witness :
    isJQLBounded "project = FOO" = true ∧ bindJQL "project = FOO" = "project = FOO" :=
  ⟨by decide, c7_bound_synthesis.2.2.1 "project = FOO" (by decide)⟩

/-- **C8.** The query-bounding transformation is idempotent: an already-bound
query is returned unchanged, every output of the transformation passes the
bounding check, and applying the transformation twice equals applying it
once — no double-bounding occurs. -/
theorem c8_bound_idempotent :
    (∀ q, isJQLBounded q = true → bindJQL q = q) ∧
    (∀ q, isJQLBounded (bindJQL q) = true) ∧
    (∀ q, bindJQL (bindJQL q) = bindJQL q) := by
  have pass : ∀ s, isJQLBounded s = true → bindJQL s = s := by
    intro s h
    simp [bindJQL, h]
  exact ⟨pass, isJQLBounded_bindJQL, fun q => pass _ (isJQLBounded_bindJQL q)⟩

/-- Witness for C8: double application on a concrete unbounded query. -/
theorem c8_bound_idempotent_witness :
    bindJQL "assignee = bob" = "created >= -90d AND (assignee = bob)" ∧
    bindJQL (bindJQL "assignee = bob") = bindJQL "assignee = bob" :=
  ⟨by decide, c8_bound_idempotent.2.2 "assignee = bob"⟩

/-- **C5.** For a modern-dialect (v3) search response decoded with total zero
and a non-empty issues list, the returned total is `startAt + len(issues)`
when `isLast` is set and the sentinel 10000 otherwise; a nonzero decoded
total is left unchanged. -/
theorem c5_total_fixup (startAt : Int) (out : SearchResult) :
    (out.total = 0 → 0 < out.issues.length →
      search startAt apiVersion3 (.response 200 (some out)) =
        .ok { out with total :=
          if out.isLast then startAt + (out.issues.length : Int) else 10000 }) ∧
    (out.total ≠ 0 →
      search startAt apiVersion3 (.response 200 (some out)) = .ok out) := by
  have hs : search startAt apiVersion3 (.response 200 (some out))
      = .ok (fixSearchTotal apiVersion3 startAt out) := by
    simp [search]
  constructor
  · intro h0 hlen
    rw [hs]
    unfold fixSearchTotal
    rw [if_pos ⟨rfl, h0, hlen⟩]
    by_cases hl : out.isLast <;> simp [hl]
  · intro h0
    rw [hs]
    unfold fixSearchTotal
    rw [if_neg (by simp [h0])]

/-- Witness for C5: a one-issue final page with zero decoded total at offset
7 gets total 8; a nonzero total 42 is untouched. -/
theorem c5_total_fixup_witness :
    search 7 apiVersion3 (.response 200 (some
        { startAt := 7, maxResults := 50, total := 0,
          issues := [{ key := "K-1" }], nextPageToken := "", isLast := true })) =
      .ok { startAt := 7, maxResults := 50, total := 8,
            issues := [{ key := "K-1" }], nextPageToken := "", isLast := true } ∧
    search 7 apiVersion3 (.response 200 (some
        { startAt := 7, maxResults := 50, total := 42,
          issues := [{ key := "K-1" }], nextPageToken := "", isLast := false })) =
      .ok { startAt := 7, maxResults := 50, total := 42,
            issues := [{ key := "K-1" }], nextPageToken := "", isLast := false } := by
  constructor
  · have := (c5_total_fixup 7
      { startAt := 7, maxResults := 50, total := 0,
        issues := [{ key := "K-1" }], nextPageToken := "", isLast := true }).1
      (by decide) (by decide)
    simpa using this
  · exact (c5_total_fixup 7
      { startAt := 7, maxResults := 50, total := 42,
        issues := [{ key := "K-1" }], nextPageToken := "", isLast := false }).2
      (by decide)

/-- **C10.** Every HTTP response whose status code is not exactly 200 —
including other 2xx codes — makes the search operation return an error
carrying that status, for either dialect; no `SearchResult` is produced. -/
theorem c10_non_200_rejected (startAt : Int) (ver : String) (code : Int)
    (body : Option SearchResult) (h : code ≠ 200) :
    search startAt ver (.response code body) = .error (.unexpectedStatus code) := by
  simp [search, h]

/-- Witness for C10: a 201 Created response is rejected even though it is a
2xx success code. -/
theorem c10_non_200_rejected_witness :
    search 0 apiVersion3 (.response 201 (some
        { startAt := 0, maxResults := 50, total := 1,
          issues := [{ key := "K-1" }], nextPageToken := "", isLast := true })) =
      .error (.unexpectedStatus 201) :=
  c10_non_200_rejected 0 apiVersion3 201 _ (by decide)

/-! ### Duration aggregation lemmas -/

theorem sumDurations_addDuration (m : List (String × Int)) (k : String) (d : Int) :
    sumDurations (addDuration m k d) = sumDurations m + d := by
  induction m with
  | nil => simp [addDuration, sumDurations]
  | cons p t ih =>
    obtain ⟨k', v⟩ := p
    by_cases hk : k' = k
    · simp [addDuration, hk, sumDurations]
      ring
    · simp only [addDuration, hk, if_false, sumDurations, List.map_cons, List.sum_cons] at ih ⊢
      rw [ih]
      ring

theorem sumDurations_foldl (l m : List (String × Int)) :
    sumDurations (l.foldl (fun acc p => addDuration acc p.1 p.2) m) =
      sumDurations m + (l.map Prod.snd).sum := by
  induction l generalizing m with
  | nil => simp
  | cons p t ih =>
    simp only [List.foldl_cons, List.map_cons, List.sum_cons]
    rw [ih, sumDurations_addDuration]
    ring

theorem residencies_sum (now : Int) (c : StatusChange) (rest : List StatusChange) :
    ((residencies now (c :: rest)).map Prod.snd).sum = now - c.timestamp := by
  induction rest generalizing c with
  | nil => simp [residencies]
  | cons c' rest' ih =>
    rw [show residencies now (c :: c' :: rest')
        = (c.toStatus, c'.timestamp - c.timestamp) :: residencies now (c' :: rest') from rfl]
    simp only [List.map_cons, List.sum_cons, ih c']
    ring

/-- **C9.** For a nonempty (chronologically ascending) StatusChange sequence,
the per-status residency durations produced by `calculateStatusTime` sum to
`now - timestamp(first entry)`; recurring statuses are accumulated into the
same map entry, leaving the sum unchanged. -/
theorem c9_duration_sum (now : Int) (c : StatusChange) (rest : List StatusChange)
    (_h : ChronAsc (c :: rest)) :
    sumDurations (calculateStatusTime now (c :: rest)) = now - c.timestamp := by
  unfold calculateStatusTime
  rw [sumDurations_foldl, residencies_sum]
  simp [sumDurations]

/-- Witness for C9: a concrete ascending two-entry timeline with a recurring
status, aggregated at `now = 100`. -/
theorem c9_duration_sum_witness :
    ChronAsc [{ defaultChange with timestamp := 10, toStatus := "To Do" },
              { defaultChange with timestamp := 30, toStatus := "To Do" }] ∧
    sumDurations (calculateStatusTime 100
      [{ defaultChange with timestamp := 10, toStatus := "To Do" },
       { defaultChange with timestamp := 30, toStatus := "To Do" }]) = 100 - 10 :=
  ⟨by decide,
   c9_duration_sum 100 { defaultChange with timestamp := 10, toStatus := "To Do" }
     [{ defaultChange with timestamp := 30, toStatus := "To Do" }] (by decide)⟩

/-! ### C2: the changelog pager against a zero-history page -/

/-- A parser that always fails (both layout parsers may be instantiated with
it; timestamps play no role in the pager's control flow). -/
def noParse : String → Option Int := fun _ => none

/-- A server whose changelog continuation endpoint always answers 200 with a
well-formed page declaring `total = 10` but containing zero histories — the
"misbehaving server" the spec's zero-histories stop condition is meant to
defend against. -/
def stallServer : Int → HttpOutcome IssueChangelog :=
  fun _ => .response 200 (some { startAt := 0, maxResults := 50, total := 10, histories := [] })

/-- The initial issue+changelog fetch that sends `GetIssueStatusChanges` into
pagination: the embedded page declares `total = 10` beyond
`startAt + maxResults = 5`. -/
def stallIssueRes : HttpOutcome IssueWithChangelog :=
  .response 200 (some
    { key := "K-1", fields := { created := "", reporterName := "" },
      changelog := some { startAt := 0, maxResults := 5, total := 10, histories := [] } })

/-- **C2 (refuted: code bug).** Against a server whose continuation page
returns zero histories while the declared total is not yet reached,
`fetchAdditionalHistory` never terminates: for every number of allowed HTTP
calls it is still looping at the same offset with nothing accumulated, and
consequently `GetIssueStatusChanges` never returns. The code has no
zero-histories stop condition: `currentStart + len(histories) >= total` is
never reached and `currentStart` never advances. -/
theorem c2_pager_no_termination :
    (∀ (fuel : Nat) (acc : List StatusChange),
      fetchAdditionalHistory noParse noParse stallServer fuel 5 acc = .running acc 5) ∧
    (∀ fuel : Nat,
      getIssueStatusChanges noParse noParse 100 stallIssueRes stallServer fuel = none) := by
  have hloop : ∀ (fuel : Nat) (acc : List StatusChange),
      fetchAdditionalHistory noParse noParse stallServer fuel 5 acc = .running acc 5 := by
    intro fuel
    induction fuel with
    | zero => intro acc; rfl
    | succ n ih =>
      intro acc
      simp only [fetchAdditionalHistory, stallServer]
      norm_num [extractStatusChangesCont]
      exact ih acc
  refine ⟨hloop, fun fuel => ?_⟩
  have hc : collectStatusChanges noParse noParse 100
      { key := "K-1", fields := { created := "", reporterName := "" },
        changelog := some { startAt := 0, maxResults := 5, total := 10, histories := [] } }
      stallServer fuel = none := by
    simp only [collectStatusChanges]
    norm_num [extractStatusChanges, hloop fuel []]
  simp only [getIssueStatusChanges, stallIssueRes, getIssueWithChangelog]
  norm_num [hc]

/-! ### Concrete fixtures for the reconstruction claims

`exParse` is a concrete stand-in for a timestamp parser: it resolves the
tokens used by the fixtures and fails on anything else. -/

/-- Concrete parser used by fixtures. -/
def exParse : String → Option Int := fun s =>
  if s = "t1" then some 10
  else if s = "t2" then some 20
  else if s = "t4" then some 40
  else if s = "t6" then some 60
  else none

/-- A history item recording a status transition. -/
def statusItem (fromS toS : String) : HistoryItem :=
  { field := "status", fieldtype := "jira", fromId := "1", fromString := fromS,
    toId := "2", toString := toS }

/-! ### C6: timestamp parse fallback chain -/

/-- **C6 (amended).** On the embedded first changelog page the parse chain is
primary format, then secondary format, then the current wall-clock time; on
continuation pages a double parse failure instead leaves the zero instant
(the Go zero `time.Time`), not the current time; and in neither case is a
parse failure propagated: once the initial issue+changelog fetch succeeded,
`GetIssueStatusChanges` never returns an error, whatever the parsers do. -/
theorem c6_parse_fallback (p1 p2 : String → Option Int) (now : Int) (s : String) :
    (∀ t, p1 s = some t → parseHistoryCreated p1 p2 now s = t) ∧
    (p1 s = none → ∀ t, p2 s = some t → parseHistoryCreated p1 p2 now s = t) ∧
    (p1 s = none → p2 s = none → parseHistoryCreated p1 p2 now s = now) ∧
    (p1 s = none → p2 s = none → parseHistoryCreatedCont p1 p2 s = 0) ∧
    (∀ (issueRes : HttpOutcome IssueWithChangelog) (issue : IssueWithChangelog)
        (server : Int → HttpOutcome IssueChangelog) (fuel : Nat),
      getIssueWithChangelog issueRes = .ok issue →
      ∀ e, getIssueStatusChanges p1 p2 now issueRes server fuel ≠ some (.error e)) := by
  refine ⟨?_, ?_, ?_, ?_, ?_⟩
  · intro t h1
    simp [parseHistoryCreated, h1]
  · intro h1 t h2
    simp [parseHistoryCreated, h1, h2]
  · intro h1 h2
    simp [parseHistoryCreated, h1, h2]
  · intro h1 h2
    simp [parseHistoryCreatedCont, h1, h2]
  · intro issueRes issue server fuel hi e
    simp only [getIssueStatusChanges, hi]
    cases hc : collectStatusChanges p1 p2 now issue server fuel <;> simp

/-- Witness for C6 (amended): both parsers fail on `"garbage"`; the embedded
chain yields the current time 100, the continuation chain the zero instant. -/
theorem c6_parse_fallback_witness :
    parseHistoryCreated noParse noParse 100 "garbage" = 100 ∧
    parseHistoryCreatedCont noParse noParse "garbage" = 0 :=
  ⟨(c6_parse_fallback noParse noParse 100 "garbage").2.2.1 rfl rfl,
   (c6_parse_fallback noParse noParse 100 "garbage").2.2.2.1 rfl rfl⟩

/-- Initial fetch for the C6 counterexample: the embedded page (one parseable
entry at 60) declares total 4 beyond `startAt + maxResults = 2`, forcing a
continuation fetch. -/
def c6IssueRes : HttpOutcome IssueWithChangelog :=
  .response 200 (some
    { key := "K-6", fields := { created := "", reporterName := "" },
      changelog := some { startAt := 0, maxResults := 2, total := 4, histories :=
        [{ id := "1", author := none, created := "t6", items := [statusItem "A" "B"] }] } })

/-- Continuation server for the C6 counterexample: the page at offset 2 holds
a status transition whose `created` string parses under neither format. -/
def c6Server : Int → HttpOutcome IssueChangelog := fun n =>
  if n = 2 then
    .response 200 (some { startAt := 2, maxResults := 2, total := 4, histories :=
      [{ id := "2", author := none, created := "garbage", items := [statusItem "B" "C"] },
       { id := "3", author := none, created := "t4", items := [] }] })
  else .err

/-- **C6 (counterexample).** Running the reconstruction with wall-clock time
100 over a continuation page whose `created` fails both formats yields a
transition stamped with the zero instant 0, not the current time 100 — the
claim's "substitutes the current wall-clock time" does not hold on
continuation pages. -/
theorem c6_parse_fallback_cex :
    getIssueStatusChanges exParse exParse 100 c6IssueRes c6Server 5 =
      some (.ok [{ timestamp := 0, author := "", fromStatus := "B", toStatus := "C",
                   authorEmail := "", authorDisplayName := "" },
                 { timestamp := 60, author := "", fromStatus := "A", toStatus := "B",
                   authorEmail := "", authorDisplayName := "" }]) ∧
    (0 : Int) ≠ 100 :=
  ⟨rfl, by decide⟩

/-! ### C1: chronological ordering of the reconstructed sequence -/

/-- **C1 (amended).** The externally returned sequence is the reversal of the
discovery-order assembly; whenever that assembly (newest-first API pages,
then the creation-time backfill) is timestamp-descending, the returned
sequence is chronologically ascending. -/
theorem c1_chronological_order (p1 p2 : String → Option Int) (now : Int)
    (issueRes : HttpOutcome IssueWithChangelog)
    (server : Int → HttpOutcome IssueChangelog) (fuel : Nat)
    (issue : IssueWithChangelog) (l : List StatusChange)
    (hi : getIssueWithChangelog issueRes = .ok issue)
    (hc : collectStatusChanges p1 p2 now issue server fuel = some l)
    (hd : ChronDesc l) :
    getIssueStatusChanges p1 p2 now issueRes server fuel = some (.ok l.reverse) ∧
    ChronAsc l.reverse := by
  refine ⟨by simp only [getIssueStatusChanges, hi, hc], ?_⟩
  unfold ChronAsc
  rw [List.pairwise_reverse]
  exact hd

/-- Initial fetch for the C1 witness: embedded histories newest first. -/
def c1IssueRes : HttpOutcome IssueWithChangelog :=
  .response 200 (some
    { key := "K-1", fields := { created := "", reporterName := "" },
      changelog := some { startAt := 0, maxResults := 50, total := 2, histories :=
        [{ id := "2", author := none, created := "t2", items := [statusItem "To Do" "In Progress"] },
         { id := "1", author := none, created := "t1", items := [statusItem "Backlog" "To Do"] }] } })

/-- Witness for C1 (amended): a newest-first two-page-entry changelog is
returned in ascending order. -/
theorem c1_chronological_order_witness :
    getIssueStatusChanges exParse exParse 100 c1IssueRes (fun _ => .err) 0 =
      some (.ok [{ timestamp := 10, author := "", fromStatus := "Backlog", toStatus := "To Do",
                   authorEmail := "", authorDisplayName := "" },
                 { timestamp := 20, author := "", fromStatus := "To Do", toStatus := "In Progress",
                   authorEmail := "", authorDisplayName := "" }]) ∧
    ChronAsc [{ timestamp := 10, author := "", fromStatus := "Backlog", toStatus := "To Do",
                authorEmail := "", authorDisplayName := "" },
              { timestamp := 20, author := "", fromStatus := "To Do", toStatus := "In Progress",
                authorEmail := "", authorDisplayName := "" }] := by
  have h := c1_chronological_order exParse exParse 100 c1IssueRes (fun _ => .err) 0
    { key := "K-1", fields := { created := "", reporterName := "" },
      changelog := some { startAt := 0, maxResults := 50, total := 2, histories :=
        [{ id := "2", author := none, created := "t2", items := [statusItem "To Do" "In Progress"] },
         { id := "1", author := none, created := "t1", items := [statusItem "Backlog" "To Do"] }] } }
    [{ timestamp := 20, author := "", fromStatus := "To Do", toStatus := "In Progress",
       authorEmail := "", authorDisplayName := "" },
     { timestamp := 10, author := "", fromStatus := "Backlog", toStatus := "To Do",
       authorEmail := "", authorDisplayName := "" }]
    rfl rfl (by decide)
  exact h

/-- Initial fetch for the C1 counterexample: the same changelog delivered
oldest first (a server not following the newest-first convention). -/
def c1CexIssueRes : HttpOutcome IssueWithChangelog :=
  .response 200 (some
    { key := "K-1", fields := { created := "", reporterName := "" },
      changelog := some { startAt := 0, maxResults := 50, total := 2, histories :=
        [{ id := "1", author := none, created := "t1", items := [statusItem "Backlog" "To Do"] },
         { id := "2", author := none, created := "t2", items := [statusItem "To Do" "In Progress"] }] } })

/-- **C1 (counterexample).** The code merely reverses the discovery order and
never compares timestamps, so a changelog page delivered oldest-first is
returned descending: the claim's unconditional "every returned sequence is
ascending" is false on the code. -/
theorem c1_chronological_order_cex :
    getIssueStatusChanges exParse exParse 100 c1CexIssueRes (fun _ => .err) 0 =
      some (.ok [{ timestamp := 20, author := "", fromStatus := "To Do", toStatus := "In Progress",
                   authorEmail := "", authorDisplayName := "" },
                 { timestamp := 10, author := "", fromStatus := "Backlog", toStatus := "To Do",
                   authorEmail := "", authorDisplayName := "" }]) ∧
    ¬ ChronAsc [{ timestamp := 20, author := "", fromStatus := "To Do", toStatus := "In Progress",
                  authorEmail := "", authorDisplayName := "" },
                { timestamp := 10, author := "", fromStatus := "Backlog", toStatus := "To Do",
                  authorEmail := "", authorDisplayName := "" }] :=
  ⟨rfl, by decide⟩

/-! ### C3: behaviour on continuation-page failure -/

/-- **C3 (amended).** When the initial issue+changelog fetch succeeds, a
continuation fetch is required, and the pager comes back with an error, the
call returns without error — but carrying only the transitions of the
embedded first page (backfilled and reversed): the pager's partially
accumulated continuation-page transitions are discarded by the
`if err == nil` guard on line 967. -/
theorem c3_partial_failure (p1 p2 : String → Option Int) (now : Int)
    (issueRes : HttpOutcome IssueWithChangelog)
    (server : Int → HttpOutcome IssueChangelog) (fuel : Nat)
    (issue : IssueWithChangelog) (changelog : IssueChangelog) (add : List StatusChange)
    (hi : getIssueWithChangelog issueRes = .ok issue)
    (hcl : issue.changelog = some changelog)
    (hpag : changelog.startAt + changelog.maxResults < changelog.total)
    (hf : fetchAdditionalHistory p1 p2 server fuel changelog.maxResults [] =
      .finished add true) :
    getIssueStatusChanges p1 p2 now issueRes server fuel =
      some (.ok (addInitialStatus p1 p2 issue
        (extractStatusChanges p1 p2 now changelog.histories)).reverse) := by
  simp only [getIssueStatusChanges, hi, collectStatusChanges, hcl]
  rw [if_pos (show changelog.total > changelog.startAt + changelog.maxResults from hpag)]
  rw [hf]
  simp

/-- Initial fetch for C3: the embedded page (one transition at 60) declares
total 6, so continuation pages are needed starting at offset 2. -/
def c3IssueRes : HttpOutcome IssueWithChangelog :=
  .response 200 (some
    { key := "K-3", fields := { created := "", reporterName := "" },
      changelog := some { startAt := 0, maxResults := 2, total := 6, histories :=
        [{ id := "10", author := none, created := "t6", items := [statusItem "C" "D"] }] } })

/-- Continuation server for C3: the page at offset 2 succeeds and contains a
status transition (at 40); the page at offset 4 fails with a transport
error, so the pager errors out after one successful continuation page. -/
def c3Server : Int → HttpOutcome IssueChangelog := fun n =>
  if n = 2 then
    .response 200 (some { startAt := 2, maxResults := 2, total := 6, histories :=
      [{ id := "11", author := none, created := "t4", items := [statusItem "B" "C"] },
       { id := "12", author := none, created := "t2", items := [] }] })
  else .err

/-- **C3 (counterexample).** Continuation page 1 of 3 succeeds and recovers
the transition at 40; page 2 fails. The call indeed returns without error,
but its result holds only the embedded page's transition (at 60) — the
transition recovered from the earlier successful continuation page is NOT
contained in it, contradicting the claim. -/
theorem c3_partial_failure_cex :
    fetchAdditionalHistory exParse exParse c3Server 5 2 [] =
      .finished [{ timestamp := 40, author := "", fromStatus := "B", toStatus := "C",
                   authorEmail := "", authorDisplayName := "" }] true ∧
    getIssueStatusChanges exParse exParse 100 c3IssueRes c3Server 5 =
      some (.ok [{ timestamp := 60, author := "", fromStatus := "C", toStatus := "D",
                   authorEmail := "", authorDisplayName := "" }]) ∧
    ({ timestamp := 40, author := "", fromStatus := "B", toStatus := "C",
       authorEmail := "", authorDisplayName := "" } : StatusChange) ∉
      ([{ timestamp := 60, author := "", fromStatus := "C", toStatus := "D",
          authorEmail := "", authorDisplayName := "" }] : List StatusChange) :=
  ⟨rfl, rfl, by decide⟩

/-- Witness for C3 (amended): the same run, obtained from the theorem. -/
theorem c3_partial_failure_witness :
    getIssueStatusChanges exParse exParse 100 c3IssueRes c3Server 5 =
      some (.ok [{ timestamp := 60, author := "", fromStatus := "C", toStatus := "D",
                   authorEmail := "", authorDisplayName := "" }]) := by
  have h := c3_partial_failure exParse exParse 100 c3IssueRes c3Server 5
    { key := "K-3", fields := { created := "", reporterName := "" },
      changelog := some { startAt := 0, maxResults := 2, total := 6, histories :=
        [{ id := "10", author := none, created := "t6", items := [statusItem "C" "D"] }] } }
    { startAt := 0, maxResults := 2, total := 6, histories :=
        [{ id := "10", author := none, created := "t6", items := [statusItem "C" "D"] }] }
    [{ timestamp := 40, author := "", fromStatus := "B", toStatus := "C",
       authorEmail := "", authorDisplayName := "" }]
    rfl rfl (by decide) rfl
  exact h

/-! ### C4: initial-status backfill -/

/-- Concrete primary-format parser for C4: the issue's creation string parses
to `T1`, the single history entry's string to `T2`. -/
def c4Parse (T1 T2 : Int) : String → Option Int := fun s =>
  if s = "created-ts" then some T1
  else if s = "history-ts" then some T2
  else none

/-- **C4.** For an issue whose changelog holds exactly one status transition
(`"To Do"` → `"In Progress"` at `T2`) and whose creation timestamp `T1 < T2`
parses, the call returns exactly `[{from:"", to:"To Do", T1}, {from:"To Do",
to:"In Progress", T2}]`, the synthetic entry attributed to the reporter; and
with the same changelog except an empty previous-status label, no synthetic
entry is added. The secondary parser, the continuation server and the fuel
are irrelevant (quantified): no fallback parse and no continuation fetch
occurs. -/
theorem c4_initial_backfill (T1 T2 now : Int) (p2 : String → Option Int)
    (server : Int → HttpOutcome IssueChangelog) (fuel : Nat) (_hlt : T1 < T2) :
    getIssueStatusChanges (c4Parse T1 T2) p2 now (.response 200 (some
      { key := "K-4", fields := { created := "created-ts", reporterName := "rep" },
        changelog := some { startAt := 0, maxResults := 50, total := 1, histories :=
          [{ id := "1", author := none, created := "history-ts",
             items := [statusItem "To Do" "In Progress"] }] } })) server fuel =
      some (.ok [
        { timestamp := T1, author := "rep", fromStatus := "", toStatus := "To Do",
          authorEmail := "", authorDisplayName := "rep" },
        { timestamp := T2, author := "", fromStatus := "To Do", toStatus := "In Progress",
          authorEmail := "", authorDisplayName := "" }]) ∧
    getIssueStatusChanges (c4Parse T1 T2) p2 now (.response 200 (some
      { key := "K-4", fields := { created := "created-ts", reporterName := "rep" },
        changelog := some { startAt := 0, maxResults := 50, total := 1, histories :=
          [{ id := "1", author := none, created := "history-ts",
             items := [statusItem "" "To Do"] }] } })) server fuel =
      some (.ok [
        { timestamp := T2, author := "", fromStatus := "", toStatus := "To Do",
          authorEmail := "", authorDisplayName := "" }]) :=
  ⟨rfl, rfl⟩

/-- Witness for C4 at `T1 = 10 < 20 = T2`, wall clock 100. -/
theorem c4_initial_backfill_witness :
    getIssueStatusChanges (c4Parse 10 20) noParse 100 (.response 200 (some
      { key := "K-4", fields := { created := "created-ts", reporterName := "rep" },
        changelog := some { startAt := 0, maxResults := 50, total := 1, histories :=
          [{ id := "1", author := none, created := "history-ts",
             items := [statusItem "To Do" "In Progress"] }] } })) (fun _ => .err) 0 =
      some (.ok [
        { timestamp := 10, author := "rep", fromStatus := "", toStatus := "To Do",
          authorEmail := "", authorDisplayName := "rep" },
        { timestamp := 20, author := "", fromStatus := "To Do", toStatus := "In Progress",
          authorEmail := "", authorDisplayName := "" }]) :=
  (c4_initial_backfill 10 20 100 noParse (fun _ => .err) 0 (by decide)).1

end JiraLib
